import Mathlib

/-!
Verification of `moviepy/video/io/gif_writers.py` (functions `write_gif` and
`write_gif_with_tempfiles`): a shallow embedding of the GIF-export pipeline
construction, the frame-streaming loop, the progress callback, and the
process shutdown logic, together with theorems about the claims of the
specification.

Conventions of the embedding:
* Python scalars that flow into the `opt` parameter are modelled by `PyVal`
  (the code compares `opt` with `==` against `False`/`None` and tests its
  truthiness, so Python equality and truthiness are modelled explicitly).
* Command lines are lists of `Arg`; a formatted argument (`"%.02f" % x`,
  `"%d" % n`, ...) is kept as a constructor carrying the exact value being
  formatted, and `Arg.file` marks the destination filename argument.
* Machine floats of the source are modelled by exact rationals.
* External effects (launching a process, writing to a pipe) are driven by
  explicit oracles: `launchFail k` says whether the k-th `Popen` call raises
  `OSError`, and `failWrite i` optionally gives the message of the `IOError`
  raised by the i-th `proc1.stdin.write` call.
-/

/-- Python values that can be passed as the `opt` argument. -/
inductive PyVal where
  | none
  | bool (b : Bool)
  | int (n : ℤ)
  | str (s : String)
deriving DecidableEq, Repr

/-- Python `==` on the modelled values: `None` equals only `None`,
`False == 0` and `True == 1`, strings equal only equal strings. -/
def pyEq : PyVal → PyVal → Bool
  | .none, .none => true
  | .bool a, .bool b => a == b
  | .bool a, .int n => (if a then (1 : ℤ) else 0) == n
  | .int n, .bool a => n == (if a then (1 : ℤ) else 0)
  | .int m, .int n => m == n
  | .str s, .str t => s == t
  | _, _ => false

/-- Python truthiness of the modelled values. -/
def pyTruthy : PyVal → Bool
  | .none => false
  | .bool b => b
  | .int n => n != 0
  | .str s => s != ""

/-- The test `opt in [False, None]` of line 253 of the source:
membership via Python `==`. -/
def optIsFalseOrNone (v : PyVal) : Bool :=
  pyEq v (.bool false) || pyEq v .none

/-- Python `int()` applied to a rational: truncation toward zero. -/
def pyInt (q : ℚ) : ℤ := if q ≤ 0 then ⌈q⌉ else ⌊q⌋

/-- One argument of an external command line.  Formatted arguments keep the
value being formatted; `Arg.file` is the destination filename. -/
inductive Arg where
  | str (s : String)
  | fmtF2 (q : ℚ)
  | fmtD (n : ℤ)
  | fmtWH (w h : ℤ)
  | fmtPct (pad : Bool) (n : ℤ)
  | py (v : PyVal)
  | file
deriving DecidableEq, Repr

/-- The numeric value actually rendered by a formatted argument:
`"%.02f" % q` renders `q` rounded to two decimals, `"%d" % n` renders `n`. -/
def Arg.value : Arg → ℚ
  | .fmtF2 q => (round (q * 100) : ℚ) / 100
  | .fmtD n => (n : ℚ)
  | .fmtPct _ n => (n : ℚ)
  | _ => 0

/-- A launched external process: its command line and whether its standard
output is a pipe (as opposed to being discarded or the destination file). -/
structure Proc where
  cmd : List Arg
  stdoutPipe : Bool
deriving DecidableEq, Repr

/-- All parameters of `write_gif` that shape the pipeline, together with the
clip attributes the function reads (`clip.w`, `clip.h`, `clip.duration`,
and whether `clip.mask` is present). -/
structure GifParams where
  program : String
  opt : PyVal
  fuzz : ℤ
  withmask : Bool
  loopCount : ℤ
  dispose : Bool
  colors : Option ℤ
  fps : ℚ
  w : ℤ
  h : ℤ
  duration : ℚ
  hasMask : Bool
deriving DecidableEq, Repr

/-- Lines 216-217: `if clip.mask is None: withmask = False`. -/
def effWithmask (p : GifParams) : Bool := p.withmask && p.hasMask

/-- The pixel-format argument of lines 223 and 237: `rgba` iff the mask is
composited. -/
def pixFmtArg (wm : Bool) : Arg := .str (if wm then "rgba" else "rgb24")

/-- Lines 219-224: the common ffmpeg raw-video input command `cmd1`. -/
def cmd1 (p : GifParams) : List Arg :=
  [.str "FFMPEG_BINARY", .str "-y", .str "-loglevel", .str "error",
   .str "-f", .str "rawvideo",
   .str "-vcodec", .str "rawvideo", .str "-r", .fmtF2 p.fps,
   .str "-s", .fmtWH p.w p.h,
   .str "-pix_fmt", pixFmtArg (effWithmask p),
   .str "-i", .str "-"]

/-- Lines 237-238: the single-stage ffmpeg command writing the GIF. -/
def ffmpegCmd (p : GifParams) : List Arg :=
  cmd1 p ++ [.str "-pix_fmt", pixFmtArg (effWithmask p),
             .str "-r", .fmtF2 p.fps, .file]

/-- Lines 244-245: stage 1 of the ImageMagick pipeline, ffmpeg emitting a
bmp stream. -/
def im1Cmd (p : GifParams) : List Arg :=
  cmd1 p ++ [.str "-f", .str "image2pipe", .str "-vcodec", .str "bmp", .str "-"]

/-- Lines 249-251: the common part of the stage-2 ImageMagick command
(`-delay "%.02f" % (100.0/fps)`, dispose, the loop count, `- -coalesce`). -/
def cmd2base (p : GifParams) : List Arg :=
  [.str "IMAGEMAGICK_BINARY", .str "-delay", .fmtF2 (100 / p.fps),
   .str "-dispose", .fmtD (if p.dispose then 2 else 1),
   .str "-loop", .fmtD p.loopCount, .str "-", .str "-coalesce"]

/-- Lines 265-268: the stage-3 ImageMagick optimizing command. -/
def cmd3 (p : GifParams) : List Arg :=
  [.str "IMAGEMAGICK_BINARY", .str "-", .str "-layers", .py p.opt,
   .str "-fuzz", .fmtPct false p.fuzz]
  ++ (match p.colors with
      | some c => [.str "-colors", .fmtD c]
      | Option.none => [])
  ++ [.file]

/-- Lines 233-272: the processes `write_gif` creates with `Popen`, in launch
order, assuming every launch succeeds.  `proc1` is the ffmpeg command (file
variant for `program == "ffmpeg"`, bmp-pipe variant otherwise); `proc2` and
`proc3` exist only for `program == "ImageMagick"`, with `proc2` writing the
file when `opt in [False, None]` and `gif:-` to a pipe otherwise, and
`proc3` created only when `opt` is truthy. -/
def plannedProcs (p : GifParams) : List Proc :=
  (if p.program = "ffmpeg" then [⟨ffmpegCmd p, false⟩]
   else [⟨im1Cmd p, true⟩])
  ++ (if p.program = "ImageMagick" then
        (if optIsFalseOrNone p.opt then [⟨cmd2base p ++ [.file], false⟩]
         else [⟨cmd2base p ++ [.str "gif:-"], true⟩])
        ++ (if pyTruthy p.opt then [⟨cmd3 p, false⟩] else [])
      else [])

/-- One pixel of a color frame (8-bit samples). -/
structure RGB where
  r : ℕ
  g : ℕ
  b : ℕ
deriving DecidableEq, Repr

/-- One frame as yielded by `clip.iter_frames(..., with_times=True)` together
with the matching mask frame `clip.mask.get_frame(t)`: timestamp, row-major
pixel list, and per-pixel opacity values on the 0-1 scale. -/
structure FrameIn where
  t : ℚ
  color : List RGB
  mask : List ℚ
deriving DecidableEq, Repr

/-- `astype('uint8')` on a nonnegative value: truncation toward zero with
wrap-around modulo 256. -/
def truncUInt8 (q : ℚ) : ℕ := (⌊q⌋).toNat % 256

/-- Lines 286-289: the bytes of one frame as written to `proc1.stdin`.
With the mask composited (`withmask` true after line 217) the frame is
`np.dstack([frame, 255 * clip.mask.get_frame(t)]).astype('uint8')`,
giving interleaved r, g, b, and the truncated scaled mask; otherwise the
3-channel frame is written unchanged. -/
def serializeFrame (wm : Bool) (f : FrameIn) : List ℕ :=
  if wm then
    (f.color.zip f.mask).flatMap
      (fun cm => [cm.1.r, cm.1.g, cm.1.b, truncUInt8 (255 * cm.2)])
  else
    f.color.flatMap (fun c => [c.r, c.g, c.b])

/-- Lines 301-305: the extra hint appended to the error message when
`program == "ImageMagick"`. -/
def imHint (program : String) : String :=
  if program = "ImageMagick" then
    "This can be due to the fact that ImageMagick is not installed on your computer, or (for Windows users) that you did not specify the path to the ImageMagick binary in file conf.py."
  else ""

/-- Lines 296-307: the message of the `IOError` re-raised when writing a
frame fails, for destination `fn` and underlying error text `cause`. -/
def writeErrMsg (fn cause program : String) : String :=
  "[MoviePy] Error: creation of " ++
    (fn ++ (" failed because of the following error:\n\n" ++
      (cause ++ (".\n\n." ++ imHint program))))

/-- Lines 284-294: the streaming loop over the frames, starting at 0-based
frame index `i` with the 1-based callback counter equal to `i + 1`.
Returns the bytes written to `proc1.stdin`, the list of
`progress_cb(count, nframes)` invocations, and the message of the `IOError`
if the write of some frame failed (`failWrite` gives, per frame index, the
message of the error raised by `proc1.stdin.write`, if any).  On a failed
write the loop aborts at once; the callback runs only after a successful
write. -/
def streamGo (wm cb : Bool) (nframes : ℤ) (failWrite : ℕ → Option String) :
    List FrameIn → ℕ → List ℕ × List (ℕ × ℤ) × Option String
  | [], _ => ([], [], Option.none)
  | f :: rest, i =>
    match failWrite i with
    | some cause => ([], [], some cause)
    | Option.none =>
      let r := streamGo wm cb nframes failWrite rest (i + 1)
      (serializeFrame wm f ++ r.1,
       (if cb then [(i + 1, nframes)] else []) ++ r.2.1,
       r.2.2)

/-- Lines 310-315: the 1-based indices of the processes waited on, on the
success path: `proc1.wait()`, then `proc2.wait()` if
`program == 'ImageMagick'`, then `proc3.wait()` if additionally `opt` is
truthy. -/
def shutdownWaits (p : GifParams) : List ℕ :=
  [1] ++ (if p.program = "ImageMagick" then
            [2] ++ (if pyTruthy p.opt then [3] else [])
          else [])

/-- The `Popen` calls in order: launching the k-th planned process fails
when `launchFail k` (the `OSError` of a missing binary); the code wraps no
`Popen` call in a handler, so the first failure aborts the launch sequence.
Returns the processes actually launched and whether all launches
succeeded. -/
def launchProcs (launchFail : ℕ → Bool) : List Proc → ℕ → List Proc × Bool
  | [], _ => ([], true)
  | pr :: rest, k =>
    if launchFail k then ([], false)
    else
      let r := launchProcs launchFail rest (k + 1)
      (pr :: r.1, r.2)

/-- The observable trace of one `write_gif` call: the processes launched,
the bytes written to the entry stdin, the progress-callback invocations,
the 1-based indices of processes waited on (in order), whether
`proc1.stdin` was closed, and the error propagated to the caller, if any. -/
structure RunResult where
  procs : List Proc
  written : List ℕ
  cbCalls : List (ℕ × ℤ)
  waited : List ℕ
  stdinClosed : Bool
  error : Option String
deriving Repr

/-- Lines 214-316: the whole of `write_gif` as a trace function.  `fn` is
the destination filename, `frames` the sequence yielded by
`clip.iter_frames`, `cb` whether `progress_cb` is callable.  A launch
failure propagates the raw `OSError` with nothing terminated or waited on;
a write failure propagates the formatted `IOError` without closing stdin or
waiting; on success stdin is closed and the stages are waited on per
`shutdownWaits`. -/
def write_gif (p : GifParams) (fn : String) (frames : List FrameIn)
    (cb : Bool) (failWrite : ℕ → Option String) (launchFail : ℕ → Bool) :
    RunResult :=
  let planned := plannedProcs p
  let lr := launchProcs launchFail planned 1
  if lr.2 then
    let nframes : ℤ := pyInt (p.duration * p.fps) + 1
    let s := streamGo (effWithmask p) cb nframes failWrite frames 0
    match s.2.2 with
    | some cause =>
      { procs := planned, written := s.1, cbCalls := s.2.1, waited := [],
        stdinClosed := false, error := some (writeErrMsg fn cause p.program) }
    | Option.none =>
      { procs := planned, written := s.1, cbCalls := s.2.1,
        waited := shutdownWaits p, stdinClosed := true, error := Option.none }
  else
    { procs := lr.1, written := [], cbCalls := [], waited := [],
      stdinClosed := false, error := some "OSError" }

/-!
The temp-file variant `write_gif_with_tempfiles` (lines 20-137).  Only the
parts the claims are about are embedded: the frame-time grid, the total
frame count, the progress-callback invocations, and the ImageMagick
command line.
-/

/-- The length of `np.arange(0, stop, step)` for positive `stop` and
`step`: `ceil(stop / step)` elements, per the numpy documentation. -/
def arangeLen (stop step : ℚ) : ℕ := (⌈stop / step⌉).toNat

/-- Line 70: `tt = np.arange(0, clip.duration, 1.0/fps)`. -/
def wgtfFrameTimes (duration fps : ℚ) : List ℚ :=
  (List.range (arangeLen duration (1 / fps))).map (fun k => (k : ℚ) * (1 / fps))

/-- Line 79: `total = int(clip.duration*fps)+1`. -/
def wgtfTotal (duration fps : ℚ) : ℤ := pyInt (duration * fps) + 1

/-- Lines 87-94: the `progress_cb(i+1, total)` invocations of
`write_gif_with_tempfiles` — one per element of `tt`, in order. -/
def wgtfCbCalls (duration fps : ℚ) (cb : Bool) : List (ℕ × ℤ) :=
  if cb then
    (List.range (arangeLen duration (1 / fps))).map
      (fun i => (i + 1, wgtfTotal duration fps))
  else []

/-- Line 96: `delay = int(100.0/fps)`. -/
def wgtfDelay (fps : ℚ) : ℤ := pyInt (100 / fps)

/-- Lines 100-109: the ImageMagick command of `write_gif_with_tempfiles`
(the `"%s_GIFTEMP*.png"` glob is the literal marker `GIFTEMP-GLOB`). -/
def wgtfCmdIM (fps : ℚ) (dispose : Bool) (loopCount : ℤ) (opt : PyVal)
    (fuzz : ℤ) (colors : Option ℤ) : List Arg :=
  [.str "IMAGEMAGICK_BINARY", .str "-delay", .fmtD (wgtfDelay fps),
   .str "-dispose", .fmtD (if dispose then 2 else 1),
   .str "-loop", .fmtD loopCount,
   .str "GIFTEMP-GLOB", .str "-coalesce",
   .str "-layers", .py opt,
   .str "-fuzz", .fmtPct true fuzz]
  ++ (match colors with
      | some c => [.str "-colors", .fmtD c]
      | Option.none => [])
  ++ [.file]


/-- A write-failure oracle: the write of frame `j` raises an `IOError` with
message `c`; every other write succeeds. -/
def failOnceAt (j : ℕ) (c : String) : ℕ → Option String :=
  fun i => if i = j then some c else Option.none

theorem streamGo_none (wm cb : Bool) (n : ℤ) :
    ∀ (frames : List FrameIn) (i : ℕ),
    streamGo wm cb n (fun _ => Option.none) frames i =
      (frames.flatMap (serializeFrame wm),
       if cb then (List.range frames.length).map (fun j => (i + j + 1, n))
       else [],
       Option.none) := by
  intro frames
  induction frames with
  | nil => intro i; simp [streamGo]
  | cons f fs ih =>
    intro i
    simp only [streamGo, ih (i + 1), List.flatMap_cons, List.length_cons,
      List.range_succ_eq_map, List.map_cons, List.map_map, Prod.mk.injEq]
    refine ⟨trivial, ?_, trivial⟩
    cases cb with
    | false => simp
    | true =>
      simp only [if_true, List.singleton_append, List.cons.injEq]
      refine ⟨trivial, ?_⟩
      refine List.map_congr_left (fun j _ => ?_)
      simp only [Function.comp_apply, Prod.mk.injEq]
      exact ⟨by omega, trivial⟩

theorem streamGo_fail (wm cb : Bool) (n : ℤ) (c : String) :
    ∀ (frames : List FrameIn) (i k : ℕ), k < frames.length →
    streamGo wm cb n (failOnceAt (i + k) c) frames i =
      ((frames.take k).flatMap (serializeFrame wm),
       if cb then (List.range k).map (fun j => (i + j + 1, n)) else [],
       some c) := by
  intro frames
  induction frames with
  | nil => intro i k hk; simp at hk
  | cons f fs ih =>
    intro i k hk
    match k with
    | 0 => simp [streamGo, failOnceAt]
    | k' + 1 =>
      have hstep : failOnceAt (i + (k' + 1)) c i = Option.none := by
        simp only [failOnceAt, if_neg (show ¬ i = i + (k' + 1) from by omega)]
      rw [show i + (k' + 1) = (i + 1) + k' from by omega] at hstep ⊢
      simp only [streamGo, hstep, ih (i + 1) k' (by simpa using Nat.lt_of_succ_lt_succ hk),
        List.take_succ_cons, List.flatMap_cons, List.range_succ_eq_map,
        List.map_cons, List.map_map, Prod.mk.injEq]
      refine ⟨trivial, ?_, trivial⟩
      cases cb with
      | false => simp
      | true =>
        simp only [if_true, List.singleton_append, List.cons.injEq]
        refine ⟨trivial, ?_⟩
        refine List.map_congr_left (fun j _ => ?_)
        simp only [Function.comp_apply, Prod.mk.injEq]
        exact ⟨by omega, trivial⟩

theorem streamGo_cb_irrel (wm c1 c2 : Bool) (n m : ℤ)
    (fw : ℕ → Option String) :
    ∀ (frames : List FrameIn) (i : ℕ),
    (streamGo wm c1 n fw frames i).1 = (streamGo wm c2 m fw frames i).1 ∧
    (streamGo wm c1 n fw frames i).2.2 = (streamGo wm c2 m fw frames i).2.2 := by
  intro frames
  induction frames with
  | nil => intro i; simp [streamGo]
  | cons f fs ih =>
    intro i
    simp only [streamGo]
    cases fw i with
    | some cause => simp
    | none =>
      simp only
      exact ⟨by rw [(ih (i + 1)).1], (ih (i + 1)).2⟩

theorem launchProcs_ok (l : List Proc) :
    ∀ k, launchProcs (fun _ => false) l k = (l, true) := by
  induction l with
  | nil => intro k; rfl
  | cons pr rest ih => intro k; simp [launchProcs, ih (k + 1)]

theorem launchProcs_fail (k : ℕ) :
    ∀ (l : List Proc) (i : ℕ), i ≤ k → k - i < l.length →
    launchProcs (fun j => j = k) l i = (l.take (k - i), false) := by
  intro l
  induction l with
  | nil => intro i _ h; simp at h
  | cons pr rest ih =>
    intro i hik hlen
    by_cases hi : i = k
    · simp [launchProcs, hi, show k - k = 0 from by omega]
    · have h1 : i + 1 ≤ k := by omega
      have h2 : k - (i + 1) < rest.length := by simp at hlen; omega
      have h3 : k - i = (k - (i + 1)) + 1 := by omega
      simp [launchProcs, hi, ih (i + 1) h1 h2, h3]

theorem optIsFalseOrNone_not_truthy (v : PyVal) :
    optIsFalseOrNone v = true → pyTruthy v = false := by
  cases v with
  | none => intro _; rfl
  | bool b => cases b <;> simp [optIsFalseOrNone, pyEq, pyTruthy]
  | int n =>
    simp only [optIsFalseOrNone, pyEq, pyTruthy]
    intro h
    simp at h
    simp [h]
  | str s => simp [optIsFalseOrNone, pyEq]

theorem shutdownWaits_covers (p : GifParams) :
    shutdownWaits p = (List.range (plannedProcs p).length).map (fun i => i + 1) := by
  by_cases h1 : p.program = "ffmpeg"
  · have h2 : ¬ p.program = "ImageMagick" := by rw [h1]; decide
    simp [shutdownWaits, plannedProcs, h1, h2]
    decide
  · by_cases h2 : p.program = "ImageMagick"
    · by_cases h3 : optIsFalseOrNone p.opt
      · have h4 := optIsFalseOrNone_not_truthy p.opt h3
        simp [shutdownWaits, plannedProcs, h1, h2, h3, h4]
        decide
      · by_cases h4 : pyTruthy p.opt
        · simp [shutdownWaits, plannedProcs, h1, h2, h3, h4]
          decide
        · simp [shutdownWaits, plannedProcs, h1, h2, h3, h4]
          decide
    · simp [shutdownWaits, plannedProcs, h1, h2]
      decide

theorem write_gif_success (p : GifParams) (fn : String) (frames : List FrameIn)
    (cb : Bool) :
    write_gif p fn frames cb (fun _ => Option.none) (fun _ => false) =
      { procs := plannedProcs p,
        written := frames.flatMap (serializeFrame (effWithmask p)),
        cbCalls := if cb then (List.range frames.length).map
            (fun j => (j + 1, pyInt (p.duration * p.fps) + 1)) else [],
        waited := shutdownWaits p,
        stdinClosed := true,
        error := Option.none } := by
  simp only [write_gif]
  rw [launchProcs_ok, streamGo_none]
  simp

theorem write_gif_writefail (p : GifParams) (fn : String)
    (frames1 : List FrameIn) (f : FrameIn) (frames2 : List FrameIn)
    (c : String) (cb : Bool) :
    write_gif p fn (frames1 ++ f :: frames2) cb
        (failOnceAt frames1.length c) (fun _ => false) =
      { procs := plannedProcs p,
        written := frames1.flatMap (serializeFrame (effWithmask p)),
        cbCalls := if cb then (List.range frames1.length).map
            (fun j => (j + 1, pyInt (p.duration * p.fps) + 1)) else [],
        waited := [],
        stdinClosed := false,
        error := some (writeErrMsg fn c p.program) } := by
  simp only [write_gif]
  rw [launchProcs_ok]
  have hk : frames1.length < (frames1 ++ f :: frames2).length := by
    simp
  have h := streamGo_fail (effWithmask p) cb (pyInt (p.duration * p.fps) + 1) c
      (frames1 ++ f :: frames2) 0 frames1.length hk
  rw [show (0 : ℕ) + frames1.length = frames1.length from by omega] at h
  rw [h]
  simp [List.take_left]

theorem write_gif_launchfail (p : GifParams) (fn : String) (frames : List FrameIn)
    (cb : Bool) (fw : ℕ → Option String) (k : ℕ) (h1 : 1 ≤ k)
    (h2 : k ≤ (plannedProcs p).length) :
    write_gif p fn frames cb fw (fun j => j = k) =
      { procs := (plannedProcs p).take (k - 1), written := [], cbCalls := [],
        waited := [], stdinClosed := false, error := some "OSError" } := by
  simp only [write_gif]
  rw [launchProcs_fail k (plannedProcs p) 1 h1 (by omega)]
  simp

/-- Claim C7: if writing a frame to the pipeline's entry stdin raises an
I/O error, streaming aborts immediately — only the frames before the
failing one have been written, none is retried — and the error surfaced to
the caller is the formatted I/O failure whose message contains the
destination filename and the text of the underlying cause. -/
theorem c7_write_failure_aborts (p : GifParams) (fn : String)
    (frames1 : List FrameIn) (f : FrameIn) (frames2 : List FrameIn)
    (c : String) (cb : Bool) :
    (write_gif p fn (frames1 ++ f :: frames2) cb
        (failOnceAt frames1.length c) (fun _ => false)).written =
      frames1.flatMap (serializeFrame (effWithmask p)) ∧
    (write_gif p fn (frames1 ++ f :: frames2) cb
        (failOnceAt frames1.length c) (fun _ => false)).error =
      some (writeErrMsg fn c p.program) ∧
    (∃ x y : String, writeErrMsg fn c p.program = x ++ fn ++ y) ∧
    (∃ x y : String, writeErrMsg fn c p.program = x ++ c ++ y) := by
  rw [write_gif_writefail]
  refine ⟨rfl, rfl, ?_, ?_⟩
  · refine ⟨"[MoviePy] Error: creation of ",
      " failed because of the following error:\n\n" ++
        (c ++ (".\n\n." ++ imHint p.program)), ?_⟩
    rw [writeErrMsg, String.append_assoc]
  · refine ⟨"[MoviePy] Error: creation of " ++
      (fn ++ " failed because of the following error:\n\n"),
      ".\n\n." ++ imHint p.program, ?_⟩
    rw [writeErrMsg]
    simp only [String.append_assoc]

/-- Claim C8: the presence of a progress callback has no effect on the
processes launched, on the bytes written to the pipeline's entry stdin, on
the shutdown behavior, or on the propagated error — only the callback
invocations themselves differ. -/
theorem c8_callback_no_interference (p : GifParams) (fn : String)
    (frames : List FrameIn) (fw : ℕ → Option String) (lf : ℕ → Bool) :
    (write_gif p fn frames true fw lf).written =
      (write_gif p fn frames false fw lf).written ∧
    (write_gif p fn frames true fw lf).procs =
      (write_gif p fn frames false fw lf).procs ∧
    (write_gif p fn frames true fw lf).waited =
      (write_gif p fn frames false fw lf).waited ∧
    (write_gif p fn frames true fw lf).stdinClosed =
      (write_gif p fn frames false fw lf).stdinClosed ∧
    (write_gif p fn frames true fw lf).error =
      (write_gif p fn frames false fw lf).error := by
  obtain ⟨h1, h2⟩ := streamGo_cb_irrel (effWithmask p) true false
    (pyInt (p.duration * p.fps) + 1) (pyInt (p.duration * p.fps) + 1)
    fw frames 0
  simp only [write_gif]
  cases hl : (launchProcs lf (plannedProcs p) 1).2 with
  | false => simp
  | true =>
    simp only [if_true]
    cases he : (streamGo (effWithmask p) false
        (pyInt (p.duration * p.fps) + 1) fw frames 0).2.2 with
    | some cause =>
      rw [h2.trans he]
      simp [h1]
    | none =>
      rw [h2.trans he]
      simp [h1]

/-- The parameters of a `write_gif` call with the clip mask absent and
`withmask = True` passed by the caller. -/
def maskAbsent (p : GifParams) : GifParams := { p with withmask := true, hasMask := false }

/-- Claim C9: when the clip has no mask, `write_gif` silently disables
alpha compositing even though the caller passed `withmask = True`: the
first stage's command carries pixel format `rgb24`, every frame is written
as a 3-channel buffer, and no error is raised. -/
theorem c9_no_mask_disables_alpha (p : GifParams) (fn : String)
    (frames : List FrameIn) (cb : Bool) :
    effWithmask (maskAbsent p) = false ∧
    (∀ pr ∈ (write_gif (maskAbsent p) fn frames
        cb (fun _ => Option.none) (fun _ => false)).procs.take 1,
      pr.cmd[13]? = some (Arg.str "rgb24")) ∧
    (write_gif (maskAbsent p) fn frames
        cb (fun _ => Option.none) (fun _ => false)).written =
      frames.flatMap (fun f => f.color.flatMap (fun c => [c.r, c.g, c.b])) ∧
    (write_gif (maskAbsent p) fn frames
        cb (fun _ => Option.none) (fun _ => false)).error = Option.none := by
  rw [write_gif_success]
  refine ⟨rfl, ?_, ?_, rfl⟩
  · intro pr hpr
    simp only [plannedProcs] at hpr
    split at hpr <;> simp at hpr <;> rw [hpr] <;> rfl
  · simp only [serializeFrame, effWithmask]
    rfl

/-- The parameters of a single-stage (`program = "ffmpeg"`) `write_gif`
call with the ImageMagick-only parameters set to the given values. -/
def ffmpegParams (p : GifParams) (o : PyVal) (fz : ℤ) (co : Option ℤ) (d : Bool) (l : ℤ) : GifParams := { p with program := "ffmpeg", opt := o, fuzz := fz, colors := co, dispose := d, loopCount := l }

/-- Claim C10: with `program = "ffmpeg"`, the `opt`, `fuzz`, `colors`,
`dispose` and `loop` parameters have no effect on the launched command or
on the bytes written to the pipeline: two runs differing only in those
parameters launch the same single-stage command and write identical
bytes. -/
theorem c10_ffmpeg_ignores_im_params (p : GifParams)
    (o1 o2 : PyVal) (fz1 fz2 : ℤ) (co1 co2 : Option ℤ) (d1 d2 : Bool)
    (l1 l2 : ℤ) (fn : String) (frames : List FrameIn) (cb : Bool)
    (fw : ℕ → Option String) (lf : ℕ → Bool) :
    (write_gif (ffmpegParams p o1 fz1 co1 d1 l1) fn frames cb fw lf).procs =
      (write_gif (ffmpegParams p o2 fz2 co2 d2 l2) fn frames cb fw lf).procs ∧
    (write_gif (ffmpegParams p o1 fz1 co1 d1 l1) fn frames cb fw lf).written =
      (write_gif (ffmpegParams p o2 fz2 co2 d2 l2) fn frames cb fw lf).written := by
  have hplan : plannedProcs (ffmpegParams p o1 fz1 co1 d1 l1) =
      plannedProcs (ffmpegParams p o2 fz2 co2 d2 l2) := by
    simp [plannedProcs, ffmpegParams, ffmpegCmd, cmd1, effWithmask]
  have hwm : effWithmask (ffmpegParams p o1 fz1 co1 d1 l1) =
      effWithmask (ffmpegParams p o2 fz2 co2 d2 l2) := rfl
  have hdf : (ffmpegParams p o1 fz1 co1 d1 l1).duration *
      (ffmpegParams p o1 fz1 co1 d1 l1).fps =
      (ffmpegParams p o2 fz2 co2 d2 l2).duration *
        (ffmpegParams p o2 fz2 co2 d2 l2).fps := rfl
  simp only [write_gif, hplan, hwm, hdf]
  cases hl : (launchProcs lf (plannedProcs (ffmpegParams p o2 fz2 co2 d2 l2)) 1).2 with
  | false => simp
  | true =>
    simp only [if_true]
    cases he : (streamGo (effWithmask (ffmpegParams p o2 fz2 co2 d2 l2)) cb
        (pyInt ((ffmpegParams p o2 fz2 co2 d2 l2).duration *
          (ffmpegParams p o2 fz2 co2 d2 l2).fps) + 1) fw frames 0).2.2 with
    | some cause => simp
    | none => simp

/-- Claim C1 (amended): on the success path `write_gif` closes the entry
stdin and waits exactly once for every launched stage; but on the
streaming-failure path the formatted `IOError` propagates to the caller
without closing stdin and without waiting on any launched process. -/
theorem c1_amended (p : GifParams) (fn : String)
    (frames frames1 frames2 : List FrameIn) (f : FrameIn) (c : String)
    (cb : Bool) :
    (write_gif p fn frames cb (fun _ => Option.none) (fun _ => false)).stdinClosed
      = true ∧
    (write_gif p fn frames cb (fun _ => Option.none) (fun _ => false)).waited =
      (List.range (write_gif p fn frames cb (fun _ => Option.none)
        (fun _ => false)).procs.length).map (fun i => i + 1) ∧
    (write_gif p fn (frames1 ++ f :: frames2) cb (failOnceAt frames1.length c)
        (fun _ => false)).error = some (writeErrMsg fn c p.program) ∧
    (write_gif p fn (frames1 ++ f :: frames2) cb (failOnceAt frames1.length c)
        (fun _ => false)).waited = [] ∧
    (write_gif p fn (frames1 ++ f :: frames2) cb (failOnceAt frames1.length c)
        (fun _ => false)).stdinClosed = false := by
  rw [write_gif_success, write_gif_writefail]
  exact ⟨rfl, shutdownWaits_covers p, rfl, rfl, rfl⟩

/-- Claim C1 as stated is false on the streaming-failure path: at this
concrete input the write of the first frame fails, the error propagates,
and the one launched process is neither closed nor waited on. -/
theorem c1_counterexample :
    (write_gif ⟨"ffmpeg", PyVal.str "OptimizeTransparency", 1, true, 0, true,
        Option.none, 10, 64, 48, 2, false⟩ "out.gif"
        [⟨0, [⟨0, 0, 0⟩], []⟩] true (failOnceAt 0 "Broken pipe")
        (fun _ => false)).procs.length = 1 ∧
    (write_gif ⟨"ffmpeg", PyVal.str "OptimizeTransparency", 1, true, 0, true,
        Option.none, 10, 64, 48, 2, false⟩ "out.gif"
        [⟨0, [⟨0, 0, 0⟩], []⟩] true (failOnceAt 0 "Broken pipe")
        (fun _ => false)).error =
      some (writeErrMsg "out.gif" "Broken pipe" "ffmpeg") ∧
    (write_gif ⟨"ffmpeg", PyVal.str "OptimizeTransparency", 1, true, 0, true,
        Option.none, 10, 64, 48, 2, false⟩ "out.gif"
        [⟨0, [⟨0, 0, 0⟩], []⟩] true (failOnceAt 0 "Broken pipe")
        (fun _ => false)).waited = [] ∧
    (write_gif ⟨"ffmpeg", PyVal.str "OptimizeTransparency", 1, true, 0, true,
        Option.none, 10, 64, 48, 2, false⟩ "out.gif"
        [⟨0, [⟨0, 0, 0⟩], []⟩] true (failOnceAt 0 "Broken pipe")
        (fun _ => false)).stdinClosed = false := by
  rw [show ([⟨0, [⟨0, 0, 0⟩], []⟩] : List FrameIn) =
        [] ++ ⟨0, [⟨0, 0, 0⟩], []⟩ :: [] from rfl,
      show (failOnceAt 0 "Broken pipe") =
        failOnceAt (List.length ([] : List FrameIn)) "Broken pipe" from rfl,
      write_gif_writefail]
  refine ⟨?_, rfl, rfl, rfl⟩
  decide

/-- The parameters of a multi-stage (`program = "ImageMagick"`) `write_gif`
call with the given `opt` value. -/
def imParams (p : GifParams) (o : PyVal) : GifParams := { p with program := "ImageMagick", opt := o }

theorem imParams_not_ffmpeg (p : GifParams) (o : PyVal) :
    ¬ (imParams p o).program = "ffmpeg" := by
  simp only [imParams]
  decide

theorem plannedProcs_im (p : GifParams) (o : PyVal) :
    plannedProcs (imParams p o) =
      ⟨im1Cmd (imParams p o), true⟩ ::
      (if optIsFalseOrNone o then
        [(⟨cmd2base (imParams p o) ++ [Arg.file], false⟩ : Proc)]
       else [⟨cmd2base (imParams p o) ++ [Arg.str "gif:-"], true⟩]) ++
      (if pyTruthy o then [⟨cmd3 (imParams p o), false⟩] else []) := by
  have h1 := imParams_not_ffmpeg p o
  have h2 : (imParams p o).program = "ImageMagick" := rfl
  have h3 : (imParams p o).opt = o := rfl
  simp [plannedProcs, h1, h2, h3]

theorem plannedProcs_im_length (p : GifParams) (o : PyVal) :
    (plannedProcs (imParams p o)).length = if pyTruthy o then 3 else 2 := by
  rw [plannedProcs_im]
  by_cases h3 : optIsFalseOrNone o
  · have h4 := optIsFalseOrNone_not_truthy o h3
    simp [h3, h4]
  · by_cases h4 : pyTruthy o <;> simp [h3, h4]

/-- Claim C3 (amended): if launching stage `k` of the ImageMagick pipeline
fails, the launch failure propagates to the caller with the already-started
stages `1..k-1` left running: they are neither terminated nor waited on.
Shown for a stage-2 failure (any `opt`) and for a stage-3 failure (an
optimizing `opt`). -/
theorem c3_amended (p : GifParams) (o : PyVal) (fn : String)
    (frames : List FrameIn) (cb : Bool) (fw : ℕ → Option String) :
    (write_gif (imParams p o) fn frames cb fw (fun j => j = 2)).procs =
      [⟨im1Cmd (imParams p o), true⟩] ∧
    (write_gif (imParams p o) fn frames cb fw (fun j => j = 2)).waited = [] ∧
    (write_gif (imParams p o) fn frames cb fw (fun j => j = 2)).stdinClosed
      = false ∧
    (write_gif (imParams p o) fn frames cb fw (fun j => j = 2)).error
      = some "OSError" ∧
    (write_gif (imParams p (PyVal.str "OptimizeTransparency")) fn frames cb fw
        (fun j => j = 3)).procs =
      [⟨im1Cmd (imParams p (PyVal.str "OptimizeTransparency")), true⟩,
       ⟨cmd2base (imParams p (PyVal.str "OptimizeTransparency")) ++
         [Arg.str "gif:-"], true⟩] ∧
    (write_gif (imParams p (PyVal.str "OptimizeTransparency")) fn frames cb fw
        (fun j => j = 3)).waited = [] ∧
    (write_gif (imParams p (PyVal.str "OptimizeTransparency")) fn frames cb fw
        (fun j => j = 3)).error = some "OSError" := by
  have hlen2 : 2 ≤ (plannedProcs (imParams p o)).length := by
    rw [plannedProcs_im_length]
    by_cases h : pyTruthy o <;> simp [h]
  have hlen3 : 3 ≤ (plannedProcs (imParams p
      (PyVal.str "OptimizeTransparency"))).length := by
    rw [plannedProcs_im_length]
    decide
  rw [write_gif_launchfail (imParams p o) fn frames cb fw 2 (by omega) hlen2,
      write_gif_launchfail (imParams p (PyVal.str "OptimizeTransparency"))
        fn frames cb fw 3 (by omega) hlen3]
  refine ⟨?_, rfl, rfl, rfl, ?_, rfl, rfl⟩
  · rw [plannedProcs_im]
    rfl
  · rw [plannedProcs_im]
    have ho1 : optIsFalseOrNone (PyVal.str "OptimizeTransparency") = false := rfl
    have ho2 : pyTruthy (PyVal.str "OptimizeTransparency") = true := rfl
    rw [ho1, ho2]
    rfl

/-- Claim C3 as stated is false: at this concrete input stage 2 of the
ImageMagick pipeline fails to launch, and the error propagates while the
already-started stage 1 is neither terminated nor reaped (waited on). -/
theorem c3_counterexample :
    (write_gif ⟨"ImageMagick", PyVal.str "OptimizeTransparency", 1, true, 0,
        true, Option.none, 10, 64, 48, 2, false⟩ "out.gif" [] true
        (fun _ => Option.none) (fun j => j = 2)).procs.length = 1 ∧
    (write_gif ⟨"ImageMagick", PyVal.str "OptimizeTransparency", 1, true, 0,
        true, Option.none, 10, 64, 48, 2, false⟩ "out.gif" [] true
        (fun _ => Option.none) (fun j => j = 2)).waited = [] ∧
    (write_gif ⟨"ImageMagick", PyVal.str "OptimizeTransparency", 1, true, 0,
        true, Option.none, 10, 64, 48, 2, false⟩ "out.gif" [] true
        (fun _ => Option.none) (fun j => j = 2)).error = some "OSError" := by
  decide

theorem plannedProcs_ffmpeg (p : GifParams) (o : PyVal) (fz : ℤ)
    (co : Option ℤ) (d : Bool) (l : ℤ) :
    plannedProcs (ffmpegParams p o fz co d l) =
      [⟨ffmpegCmd (ffmpegParams p o fz co d l), false⟩] := by
  have h1 : (ffmpegParams p o fz co d l).program = "ffmpeg" := rfl
  have h2 : ¬ (ffmpegParams p o fz co d l).program = "ImageMagick" := by
    rw [h1]; decide
  simp [plannedProcs, h1, h2]

theorem file_notin_cmd1 (q : GifParams) : Arg.file ∉ cmd1 q := by
  simp [cmd1, pixFmtArg]

theorem file_notin_im1Cmd (q : GifParams) : Arg.file ∉ im1Cmd q := by
  simp [im1Cmd, file_notin_cmd1]

theorem file_notin_cmd2gif (q : GifParams) :
    Arg.file ∉ cmd2base q ++ [Arg.str "gif:-"] := by
  simp [cmd2base]

theorem file_in_cmd3 (q : GifParams) : Arg.file ∈ cmd3 q := by
  cases h : q.colors <;> simp [cmd3, h]

/-- Claim C4 (amended): `program = "ffmpeg"` always launches exactly 1
process, and that process writes the destination file.
`program = "ImageMagick"` launches 3 processes when `opt` is truthy (the
last, optimizing stage writes the destination) and 2 processes otherwise;
the destination file appears in some launched command iff `opt` equals
(in the Python sense) `False`/`None` — giving the 2-stage plan whose second
stage writes it — or `opt` is truthy.  For a falsy `opt` that is not equal
to `False`/`None` (such as the empty string) only 2 processes are launched
and no launched stage writes the destination file.  Stages before the last
never name the destination file. -/
theorem c4_amended (p : GifParams) (o : PyVal) (fz : ℤ) (co : Option ℤ)
    (d : Bool) (l : ℤ) (fn : String) (frames : List FrameIn) (cb : Bool) :
    (write_gif (ffmpegParams p o fz co d l) fn frames cb (fun _ => Option.none)
        (fun _ => false)).procs.length = 1 ∧
    (∃ pr ∈ (write_gif (ffmpegParams p o fz co d l) fn frames cb
        (fun _ => Option.none) (fun _ => false)).procs, Arg.file ∈ pr.cmd) ∧
    (write_gif (imParams p o) fn frames cb (fun _ => Option.none)
        (fun _ => false)).procs.length = (if pyTruthy o then 3 else 2) ∧
    ((∃ pr ∈ (write_gif (imParams p o) fn frames cb (fun _ => Option.none)
        (fun _ => false)).procs, Arg.file ∈ pr.cmd) ↔
      (optIsFalseOrNone o = true ∨ pyTruthy o = true)) ∧
    (∀ pr ∈ (write_gif (imParams p o) fn frames cb (fun _ => Option.none)
        (fun _ => false)).procs.dropLast, Arg.file ∉ pr.cmd) := by
  rw [write_gif_success, write_gif_success, plannedProcs_ffmpeg,
      plannedProcs_im]
  refine ⟨rfl, ?_, ?_, ?_, ?_⟩
  · refine ⟨⟨ffmpegCmd (ffmpegParams p o fz co d l), false⟩, by simp, ?_⟩
    simp [ffmpegCmd]
  · by_cases h3 : optIsFalseOrNone o
    · have h4 := optIsFalseOrNone_not_truthy o h3
      simp [h3, h4]
    · by_cases h4 : pyTruthy o <;> simp [h3, h4]
  · by_cases h3 : optIsFalseOrNone o
    · have h4 := optIsFalseOrNone_not_truthy o h3
      simp only [h3, if_true, h4, if_false, List.append_nil]
      constructor
      · intro _
        exact Or.inl trivial
      · intro _
        refine ⟨⟨cmd2base (imParams p o) ++ [Arg.file], false⟩, by simp, by simp⟩
    · by_cases h4 : pyTruthy o
      · simp only [h3, if_false, h4, if_true]
        constructor
        · intro _
          exact Or.inr trivial
        · intro _
          refine ⟨⟨cmd3 (imParams p o), false⟩, by simp, file_in_cmd3 _⟩
      · simp only [h3, if_false, h4, List.append_nil]
        constructor
        · rintro ⟨pr, hpr, hfile⟩
          simp at hpr
          rcases hpr with h | h <;> rw [h] at hfile
          · exact absurd hfile (file_notin_im1Cmd _)
          · exact absurd hfile (file_notin_cmd2gif _)
        · rintro (h | h) <;> exact Bool.noConfusion h
  · by_cases h3 : optIsFalseOrNone o
    · have h4 := optIsFalseOrNone_not_truthy o h3
      simp only [h3, if_true, h4, if_false, List.append_nil]
      intro pr hpr
      simp [List.dropLast] at hpr
      rw [hpr]
      exact file_notin_im1Cmd _
    · by_cases h4 : pyTruthy o
      · simp only [h3, if_false, h4, if_true]
        intro pr hpr
        simp [List.dropLast] at hpr
        rcases hpr with h | h <;> rw [h]
        · exact file_notin_im1Cmd _
        · exact file_notin_cmd2gif _
      · simp only [h3, if_false, h4, List.append_nil]
        intro pr hpr
        simp [List.dropLast] at hpr
        rw [hpr]
        exact file_notin_im1Cmd _

/-- Claim C4 as stated is false: with `program = "ImageMagick"` and the
falsy but non-`False`/`None` value `opt = ""`, only 2 processes are
launched (the claim requires 3) and no launched process writes the
destination file. -/
theorem c4_counterexample :
    (write_gif ⟨"ImageMagick", PyVal.str "", 1, true, 0, true, Option.none,
        10, 64, 48, 2, false⟩ "out.gif" [] true (fun _ => Option.none)
        (fun _ => false)).procs.length = 2 ∧
    (write_gif ⟨"ImageMagick", PyVal.str "", 1, true, 0, true, Option.none,
        10, 64, 48, 2, false⟩ "out.gif" [] true (fun _ => Option.none)
        (fun _ => false)).procs.all
      (fun pr => !(pr.cmd.contains Arg.file)) = true := by
  decide

/-- Modelled from the spec's words (section 8, "Compositing"): the
interleaved output equals the color frame with a 4th channel
`round(M*255)` per pixel when compositing is active, and equals the color
frame unchanged when it is inactive.  To be compared with the code-derived
`serializeFrame`. -/
def specComposite (compositeAlpha : Bool) (f : FrameIn) : List ℕ :=
  if compositeAlpha then
    (f.color.zip f.mask).flatMap
      (fun cm => [cm.1.r, cm.1.g, cm.1.b, (round (cm.2 * 255)).toNat])
  else f.color.flatMap (fun c => [c.r, c.g, c.b])

/-- Claim C5 as stated is false: at the single-pixel frame with opacity
1/2 the code writes the truncated alpha 127 (`astype('uint8')` truncates),
while the claimed `round(M*255)` is 128. -/
theorem c5_counterexample :
    serializeFrame true ⟨0, [⟨10, 20, 30⟩], [1/2]⟩ = [10, 20, 30, 127] ∧
    specComposite true ⟨0, [⟨10, 20, 30⟩], [1/2]⟩ = [10, 20, 30, 128] ∧
    serializeFrame true ⟨0, [⟨10, 20, 30⟩], [1/2]⟩ ≠
      specComposite true ⟨0, [⟨10, 20, 30⟩], [1/2]⟩ := by
  refine ⟨?_, ?_, ?_⟩
  · show [10, 20, 30, truncUInt8 (255 * (1/2))] = [10, 20, 30, 127]
    norm_num [truncUInt8]
    decide
  · show [10, 20, 30, (round ((1:ℚ)/2 * 255)).toNat] = [10, 20, 30, 128]
    norm_num [round_eq]
    decide
  · show [10, 20, 30, truncUInt8 (255 * (1/2))] ≠
      [10, 20, 30, (round ((1:ℚ)/2 * 255)).toNat]
    have h1 : truncUInt8 (255 * ((1:ℚ)/2)) = 127 := by
      norm_num [truncUInt8]
      decide
    have h2 : (round ((1:ℚ)/2 * 255)).toNat = 128 := by
      norm_num [round_eq]
      decide
    rw [h1, h2]
    decide

/-- Claim C5 (amended): with compositing active the buffer written is the
color frame interleaved with a 4th channel `floor(M*255)` — truncation,
not rounding — for opacity values on the 0-1 scale; with compositing
inactive the 3-channel color frame is written unchanged; and the bytes a
successful `write_gif` run writes to the pipeline are exactly the
serialized frames. -/
theorem c5_amended (f : FrameIn) (h : ∀ m ∈ f.mask, 0 ≤ m ∧ m ≤ 1)
    (p : GifParams) (fn : String) (frames : List FrameIn) (cb : Bool) :
    serializeFrame true f = (f.color.zip f.mask).flatMap
      (fun cm => [cm.1.r, cm.1.g, cm.1.b, (⌊cm.2 * 255⌋).toNat]) ∧
    serializeFrame false f = f.color.flatMap (fun c => [c.r, c.g, c.b]) ∧
    (write_gif p fn frames cb (fun _ => Option.none) (fun _ => false)).written
      = frames.flatMap (serializeFrame (effWithmask p)) := by
  refine ⟨?_, rfl, ?_⟩
  · simp only [serializeFrame, if_true]
    refine List.flatMap_congr (fun cm hcm => ?_)
    have hm : cm.2 ∈ f.mask := (List.of_mem_zip hcm).2
    obtain ⟨h0, h1⟩ := h cm.2 hm
    have hfl : truncUInt8 (255 * cm.2) = (⌊cm.2 * 255⌋).toNat := by
      rw [truncUInt8, mul_comm]
      have hle : ⌊cm.2 * 255⌋ ≤ 255 := by
        have : cm.2 * 255 ≤ 255 := by nlinarith
        calc ⌊cm.2 * 255⌋ ≤ ⌊(255 : ℚ)⌋ := Int.floor_le_floor this
          _ = 255 := by norm_num
      have hge : 0 ≤ ⌊cm.2 * 255⌋ := by
        apply Int.floor_nonneg.2
        nlinarith
      have : (⌊cm.2 * 255⌋).toNat ≤ 255 := by omega
      omega
    rw [hfl]
  · rw [write_gif_success]

/-- Witness for `c5_amended` at a concrete opaque single-pixel frame. -/
theorem c5_amended_witness :
    (∀ m ∈ ([1] : List ℚ), 0 ≤ m ∧ m ≤ 1) ∧
    (serializeFrame true ⟨0, [⟨10, 20, 30⟩], [1]⟩ =
        (([⟨10, 20, 30⟩] : List RGB).zip ([1] : List ℚ)).flatMap
          (fun cm => [cm.1.r, cm.1.g, cm.1.b, (⌊cm.2 * 255⌋).toNat]) ∧
      serializeFrame false ⟨0, [⟨10, 20, 30⟩], [1]⟩ =
        ([⟨10, 20, 30⟩] : List RGB).flatMap (fun c => [c.r, c.g, c.b]) ∧
      (write_gif ⟨"ffmpeg", PyVal.str "OptimizeTransparency", 1, true, 0,
          true, Option.none, 10, 64, 48, 2, false⟩ "out.gif" [] true
          (fun _ => Option.none) (fun _ => false)).written =
        ([] : List FrameIn).flatMap (serializeFrame (effWithmask
          ⟨"ffmpeg", PyVal.str "OptimizeTransparency", 1, true, 0,
            true, Option.none, 10, 64, 48, 2, false⟩))) := by
  have hm : ∀ m ∈ ([1] : List ℚ), 0 ≤ m ∧ m ≤ 1 := by
    intro m hmem
    simp at hmem
    rw [hmem]
    constructor <;> norm_num
  exact ⟨hm, c5_amended ⟨0, [⟨10, 20, 30⟩], [1]⟩ hm
    ⟨"ffmpeg", PyVal.str "OptimizeTransparency", 1, true, 0, true,
      Option.none, 10, 64, 48, 2, false⟩ "out.gif" [] true⟩

/-- Claim C6 as stated is false at `fps = 6`: `write_gif_with_tempfiles`
places `int(100/6) = 16` in the argument list while `round(100/6) = 17`,
and `write_gif` places the two-decimal formatted value `16.67`, also not
`17`. -/
theorem c6_counterexample :
    (wgtfCmdIM 6 true 0 (PyVal.str "OptimizeTransparency") 1 Option.none)[2]?
      = some (Arg.fmtD 16) ∧
    round ((100:ℚ) / 6) = 17 ∧
    (16 : ℤ) ≠ round ((100:ℚ) / 6) ∧
    (cmd2base ⟨"ImageMagick", PyVal.str "OptimizeTransparency", 1, true, 0,
        true, Option.none, 6, 64, 48, 2, false⟩)[2]? =
      some (Arg.fmtF2 ((100:ℚ) / 6)) ∧
    Arg.value (Arg.fmtF2 ((100:ℚ) / 6)) ≠ ((round ((100:ℚ) / 6) : ℤ) : ℚ) := by
  have hd : wgtfDelay 6 = 16 := by norm_num [wgtfDelay, pyInt]
  refine ⟨?_, ?_, ?_, rfl, ?_⟩
  · rw [show (wgtfCmdIM 6 true 0 (PyVal.str "OptimizeTransparency") 1
        Option.none)[2]? = some (Arg.fmtD (wgtfDelay 6)) from rfl, hd]
  · norm_num [round_eq]
  · norm_num [round_eq]
  · norm_num [Arg.value, round_eq]

/-- Claim C6 (amended): for every positive fps,
`write_gif_with_tempfiles` places `floor(100/fps)` (Python `int()`
truncation, not rounding) as the `-delay` argument, while `write_gif`
places the two-decimal formatted value `"%.02f" % (100/fps)`, whose
rendered numeric value is `round(10000/fps)/100`. -/
theorem c6_amended (fps : ℚ) (hf : 0 < fps) (d : Bool) (l : ℤ) (o : PyVal)
    (fz : ℤ) (co : Option ℤ) (p : GifParams) :
    (wgtfCmdIM fps d l o fz co)[2]? = some (Arg.fmtD ⌊(100:ℚ) / fps⌋) ∧
    (cmd2base p)[2]? = some (Arg.fmtF2 (100 / p.fps)) ∧
    Arg.value (Arg.fmtF2 (100 / p.fps)) =
      ((round ((100:ℚ) / p.fps * 100) : ℤ) : ℚ) / 100 := by
  refine ⟨?_, rfl, rfl⟩
  have hdel : wgtfDelay fps = ⌊(100:ℚ) / fps⌋ := by
    rw [wgtfDelay, pyInt, if_neg]
    rw [not_le]
    positivity
  rw [show (wgtfCmdIM fps d l o fz co)[2]? =
      some (Arg.fmtD (wgtfDelay fps)) from rfl, hdel]

/-- Witness for `c6_amended` at `fps = 4`. -/
theorem c6_amended_witness :
    0 < (4:ℚ) ∧
    ((wgtfCmdIM 4 true 0 (PyVal.str "OptimizeTransparency") 1 Option.none)[2]?
        = some (Arg.fmtD ⌊(100:ℚ) / 4⌋) ∧
      (cmd2base ⟨"ImageMagick", PyVal.str "OptimizeTransparency", 1, true, 0,
          true, Option.none, 4, 64, 48, 2, false⟩)[2]? =
        some (Arg.fmtF2 (100 / (⟨"ImageMagick",
          PyVal.str "OptimizeTransparency", 1, true, 0, true, Option.none, 4,
          64, 48, 2, false⟩ : GifParams).fps)) ∧
      Arg.value (Arg.fmtF2 (100 / (⟨"ImageMagick",
          PyVal.str "OptimizeTransparency", 1, true, 0, true, Option.none, 4,
          64, 48, 2, false⟩ : GifParams).fps)) =
        ((round ((100:ℚ) / (⟨"ImageMagick",
          PyVal.str "OptimizeTransparency", 1, true, 0, true, Option.none, 4,
          64, 48, 2, false⟩ : GifParams).fps * 100) : ℤ) : ℚ) / 100) :=
  ⟨by decide, c6_amended 4 (by decide) true 0
    (PyVal.str "OptimizeTransparency") 1 Option.none
    ⟨"ImageMagick", PyVal.str "OptimizeTransparency", 1, true, 0, true,
      Option.none, 4, 64, 48, 2, false⟩⟩

/-- Claim C2 as stated is false: for the valid input `duration = 2`,
`fps = 10`, `framesTotal = int(2*10)+1 = 21` but the callback of
`write_gif_with_tempfiles` is invoked once per element of
`np.arange(0, 2, 1/10)`, i.e. 20 times, not 21. -/
theorem c2_counterexample :
    wgtfTotal 2 10 = 21 ∧ (wgtfCbCalls 2 10 true).length = 20 := by
  constructor
  · norm_num [wgtfTotal, pyInt]
  · norm_num [wgtfCbCalls, arangeLen]
    decide

/-- Claim C2 (amended): `framesTotal` is computed once, before streaming,
as `floor(duration*fps) + 1`; each callback invocation carries the 1-based
frame counter as first argument — strictly increasing, one per frame, in
frame order — and the constant `framesTotal` as second argument; but the
number of invocations equals the number of frames the source yields
(`ceil(duration*fps)` in the temp-file variant, the yielded frame count in
`write_gif`), which is one less than `framesTotal` whenever
`duration*fps` is an integer. -/
theorem c2_amended (d f : ℚ) (hd : 0 < d) (hf : 0 < f) (p : GifParams)
    (fn : String) (frames : List FrameIn) :
    wgtfTotal d f = ⌊d * f⌋ + 1 ∧
    (wgtfCbCalls d f true).length = (⌈d * f⌉).toNat ∧
    (∀ i, i < (⌈d * f⌉).toNat →
      (wgtfCbCalls d f true)[i]? = some (i + 1, wgtfTotal d f)) ∧
    ((wgtfCbCalls d f true).map Prod.fst).Pairwise (· < ·) ∧
    (write_gif p fn frames true (fun _ => Option.none)
        (fun _ => false)).cbCalls =
      (List.range frames.length).map
        (fun j => (j + 1, pyInt (p.duration * p.fps) + 1)) := by
  have h0 : 0 < d * f := mul_pos hd hf
  have htot : wgtfTotal d f = ⌊d * f⌋ + 1 := by
    rw [wgtfTotal, pyInt, if_neg (not_le.2 h0)]
  have harange : arangeLen d f⁻¹ = (⌈d * f⌉).toNat := by
    rw [arangeLen, div_eq_mul_inv, inv_inv]
  refine ⟨htot, ?_, ?_, ?_, ?_⟩
  · simp [wgtfCbCalls, one_div, harange]
  · intro i hi
    simp [wgtfCbCalls, one_div, harange, hi]
  · rw [wgtfCbCalls, if_pos rfl, List.map_map]
    have hcomp : (Prod.fst ∘ fun i => (i + 1, wgtfTotal d f)) =
        fun i => i + 1 := rfl
    rw [hcomp]
    exact (List.pairwise_lt_range _).map _
      (fun a b hab => Nat.add_lt_add_right hab 1)
  · rw [write_gif_success]
    simp

/-- Witness for `c2_amended` at `duration = 2`, `fps = 10`. -/
theorem c2_amended_witness :
    0 < (2:ℚ) ∧ 0 < (10:ℚ) ∧
    (wgtfTotal 2 10 = ⌊(2:ℚ) * 10⌋ + 1 ∧
     (wgtfCbCalls 2 10 true).length = (⌈(2:ℚ) * 10⌉).toNat ∧
     (∀ i, i < (⌈(2:ℚ) * 10⌉).toNat →
       (wgtfCbCalls 2 10 true)[i]? = some (i + 1, wgtfTotal 2 10)) ∧
     ((wgtfCbCalls 2 10 true).map Prod.fst).Pairwise (· < ·) ∧
     (write_gif ⟨"ffmpeg", PyVal.str "OptimizeTransparency", 1, true, 0,
         true, Option.none, 10, 64, 48, 2, false⟩ "out.gif" [] true
         (fun _ => Option.none) (fun _ => false)).cbCalls =
       (List.range ([] : List FrameIn).length).map
         (fun j => (j + 1, pyInt ((⟨"ffmpeg",
           PyVal.str "OptimizeTransparency", 1, true, 0, true, Option.none,
           10, 64, 48, 2, false⟩ : GifParams).duration *
           (⟨"ffmpeg", PyVal.str "OptimizeTransparency", 1, true, 0, true,
             Option.none, 10, 64, 48, 2, false⟩ : GifParams).fps) + 1))) :=
  ⟨by decide, by decide,
    c2_amended 2 10 (by decide) (by decide)
      ⟨"ffmpeg", PyVal.str "OptimizeTransparency", 1, true, 0, true,
        Option.none, 10, 64, 48, 2, false⟩ "out.gif" []⟩
